import Mathlib

/-
Verification of the VHDL documentation parser (vhdl_parser.py).

The source file builds a grammar table `vhdl_tokens` of named lexer states,
drives a generic regex-table lexer (`MiniLexer`, from the external module
`minilexer`) over the input text, and interprets the resulting token events
into VHDL declaration objects in `parse_vhdl`.  A façade class
`VhdlExtractor` tracks a registry of known array type names.

Everything below is a shallow embedding of that code:
 * strings are `List Char` (`Str`);
 * each regular expression of the grammar table is transcribed into a small
   regex AST (`Regex`) and matched by a backtracking CPS matcher with
   Python's leftmost/greedy priority semantics;
 * the lexer engine `vhdl_loop` is modelled from the spec (the `minilexer`
   module is not part of src/), fused with the token-event interpreter of
   `parse_vhdl` exactly as the Python `for pos, action, groups in lex.run(text)`
   loop consumes the generator.
-/

set_option maxRecDepth 1000000

abbrev Str := List Char

/-- Shorthand turning a string literal into its character list. -/
def S (s : String) : Str := s.data

/-- The double-quote character, written by code so that no string literal
needs an escaped quote. -/
def qc : Char := Char.ofNat 34

/-- Opening brace character. -/
def obr : Char := Char.ofNat 123

/-- Closing brace character. -/
def cbr : Char := Char.ofNat 125

/-- Python `\s` (ASCII): space, tab, newline, carriage return, vertical tab,
form feed. -/
def isPySpace (c : Char) : Bool :=
  c = ' ' || c = '\t' || c = '\n' || c = '\r' || c = Char.ofNat 11 || c = Char.ofNat 12

/-- Python `\w` (ASCII part): letters, digits and underscore. -/
def isPyWord (c : Char) : Bool := c.isAlphanum || c = '_'

/-- Python `str.strip`: drop leading and trailing whitespace. -/
def pyStrip (s : Str) : Str :=
  ((s.dropWhile isPySpace).reverse.dropWhile isPySpace).reverse

/-- Python `str.lower` (ASCII). -/
def pyLower (s : Str) : Str := s.map Char.toLower

/-- Python slice `text[a:b]`. -/
def pySlice (text : Str) (a b : Nat) : Str := (text.drop a).take (b - a)

/-- Regex AST covering exactly the constructs used by the patterns of
`vhdl_tokens`: literal characters, character classes (as predicates),
sequencing, prioritized alternation, greedy star, option, and numbered
capturing groups.  `(?:...)` groups are plain sequencing. -/
inductive Regex where
  | eps : Regex
  | chr (c : Char) : Regex
  | cls (p : Char → Bool) : Regex
  | seq (r1 r2 : Regex) : Regex
  | alt (r1 r2 : Regex) : Regex
  | star (r : Regex) : Regex
  | opt (r : Regex) : Regex
  | group (i : Nat) (r : Regex) : Regex

/-- Sequence of several regexes. -/
def rcat (rs : List Regex) : Regex := rs.foldr Regex.seq Regex.eps

/-- Literal string regex. -/
def rlit (s : String) : Regex := rcat (s.data.map Regex.chr)

/-- `\s*`. -/
def rsp0 : Regex := Regex.star (Regex.cls isPySpace)

/-- `\s+`. -/
def rsp1 : Regex := Regex.seq (Regex.cls isPySpace) rsp0

/-- `\w+`. -/
def rword : Regex := Regex.seq (Regex.cls isPyWord) (Regex.star (Regex.cls isPyWord))

/-- `.` (any character but newline). -/
def rdot : Regex := Regex.cls (fun c => c ≠ '\n')

/-- `.*`. -/
def rdots : Regex := Regex.star rdot

/-- Prioritized alternation of several regexes (left to right, as Python
tries alternatives of `|`). -/
def ralts : List Regex → Regex
  | [] => Regex.eps
  | [r] => r
  | r :: rs => Regex.alt r (ralts rs)

/-- Capture environment: group index paired with captured characters; a
later (more recent) binding for the same index shadows earlier ones,
mirroring how a regex engine overwrites a group on re-capture. -/
abbrev Caps := List (Nat × Str)

/-- One level of the backtracking matcher.  `self` is the matcher with one
unit less fuel, used to continue a greedy `star` after an iteration that
consumed at least one character (Python's regex engine likewise refuses
zero-width star iterations).  The continuation `k` receives the number of
characters consumed so far by the regex under consideration, the remaining
input, and the captures.  Alternatives and the option are tried in
priority order, so the first overall success is the Python match. -/
def mmatchGo (self : Regex → Str → Caps → (Nat → Str → Caps → Option (Nat × Caps)) → Option (Nat × Caps)) :
    Regex → Str → Caps → (Nat → Str → Caps → Option (Nat × Caps)) → Option (Nat × Caps)
  | Regex.eps, s, caps, k => k 0 s caps
  | Regex.chr c, s, caps, k =>
      match s with
      | [] => none
      | a :: s' => if a = c then k 1 s' caps else none
  | Regex.cls p, s, caps, k =>
      match s with
      | [] => none
      | a :: s' => if p a then k 1 s' caps else none
  | Regex.seq r1 r2, s, caps, k =>
      mmatchGo self r1 s caps (fun n1 s1 c1 =>
        mmatchGo self r2 s1 c1 (fun n2 s2 c2 => k (n1 + n2) s2 c2))
  | Regex.alt r1 r2, s, caps, k =>
      match mmatchGo self r1 s caps k with
      | some v => some v
      | none => mmatchGo self r2 s caps k
  | Regex.star r1, s, caps, k =>
      match mmatchGo self r1 s caps (fun n1 s1 c1 =>
        if 0 < n1 then
          self (Regex.star r1) s1 c1 (fun n2 s2 c2 => k (n1 + n2) s2 c2)
        else none) with
      | some v => some v
      | none => k 0 s caps
  | Regex.opt r1, s, caps, k =>
      match mmatchGo self r1 s caps k with
      | some v => some v
      | none => k 0 s caps
  | Regex.group i r1, s, caps, k =>
      mmatchGo self r1 s caps (fun n s' c' => k n s' ((i, s.take n) :: c'))

/-- Fuelled anchored matcher; fuel is spent once at entry and once per
`star` iteration, so `input length + 2` fuel always suffices for the
patterns of the grammar (whose starred bodies all consume input). -/
def mmatch : Nat → Regex → Str → Caps → (Nat → Str → Caps → Option (Nat × Caps)) → Option (Nat × Caps)
  | 0, _, _, _, _ => none
  | fuel + 1, r, s, caps, k => mmatchGo (mmatch fuel) r s caps k

/-- State-stack directive of a rule, as in the grammar table: push a named
state, or pop `n` levels (`'#pop'` is `pop 1`, `'#pop:2'` is `pop 2`). -/
inductive Dir where
  | push (s : Str) : Dir
  | pop (n : Nat) : Dir
deriving DecidableEq

/-- One lexer rule: transcribed pattern, the number of capturing groups of
that pattern, the action tag (`none` consumes silently), and an optional
state-stack directive. -/
structure Rule where
  pat : Regex
  ngroups : Nat
  action : Option Str
  dir : Option Dir

/-- Match one rule anchored at the start of `s`; on success return the
number of characters consumed together with Python's `m.groups()`:
one entry per capturing group, `none` for a group that did not take part
in the match. -/
def ruleMatch (fuel : Nat) (r : Rule) (s : Str) : Option (Nat × List (Option Str)) :=
  match mmatch fuel r.pat s [] (fun n _ caps => some (n, caps)) with
  | none => none
  | some (n, caps) => some (n, (List.range r.ngroups).map (fun i => caps.lookup (i + 1)))

/-- Try the rules of a state in table order; first match wins. -/
def tryRules (fuel : Nat) : List Rule → Str → Option (Nat × Option Str × List (Option Str) × Option Dir)
  | [], _ => none
  | r :: rs, s =>
      match ruleMatch fuel r s with
      | some (n, gs) => some (n, r.action, gs, r.dir)
      | none => tryRules fuel rs s

/-- Helper building a rule. -/
def mkRule (pat : Regex) (ng : Nat) (action : Option String) (dir : Option Dir) : Rule :=
  { pat := pat, ngroups := ng, action := action.map S, dir := dir }

/-- `(?:in|out|inout|buffer)`. -/
def rmodes : Regex := ralts [rlit "in", rlit "out", rlit "inout", rlit "buffer"]

/-- `(?:variable|signal|constant|file)`. -/
def rclasses : Regex := ralts [rlit "variable", rlit "signal", rlit "constant", rlit "file"]

/-- The grammar table `vhdl_tokens` of the source, state by state, rule by
rule, in order.  Each pattern below is the direct transcription of the
regular expression at the same place of the Python table. -/
def vhdl_tokens : List (Str × List Rule) :=
  [ (S "root",
     [ -- r'package\s+(\w+)\s+is'
       mkRule (rcat [rlit "package", rsp1, Regex.group 1 rword, rsp1, rlit "is"]) 1
         (some "package") (some (Dir.push (S "package"))),
       -- r'function\s+(\w+|"[^"]+")\s*\('
       mkRule (rcat [rlit "function", rsp1,
           Regex.group 1 (Regex.alt rword
             (rcat [Regex.chr qc, Regex.cls (fun c => c ≠ qc),
                    Regex.star (Regex.cls (fun c => c ≠ qc)), Regex.chr qc])),
           rsp0, Regex.chr '(']) 1
         (some "function") (some (Dir.push (S "param_list"))),
       -- r'procedure\s+(\w+)\s*\('
       mkRule (rcat [rlit "procedure", rsp1, Regex.group 1 rword, rsp0, Regex.chr '(']) 1
         (some "procedure") (some (Dir.push (S "param_list"))),
       -- r'function\s+(\w+)'
       mkRule (rcat [rlit "function", rsp1, Regex.group 1 rword]) 1
         (some "function") (some (Dir.push (S "simple_func"))),
       -- r'component\s+(\w+)\s*is'
       mkRule (rcat [rlit "component", rsp1, Regex.group 1 rword, rsp0, rlit "is"]) 1
         (some "component") (some (Dir.push (S "component"))),
       -- r'--.*\n'
       mkRule (rcat [rlit "--", rdots, Regex.chr '\n']) 0 none none ]),
    (S "package",
     [ mkRule (rcat [rlit "function", rsp1,
           Regex.group 1 (Regex.alt rword
             (rcat [Regex.chr qc, Regex.cls (fun c => c ≠ qc),
                    Regex.star (Regex.cls (fun c => c ≠ qc)), Regex.chr qc])),
           rsp0, Regex.chr '(']) 1
         (some "function") (some (Dir.push (S "param_list"))),
       mkRule (rcat [rlit "procedure", rsp1, Regex.group 1 rword, rsp0, Regex.chr '(']) 1
         (some "procedure") (some (Dir.push (S "param_list"))),
       mkRule (rcat [rlit "function", rsp1, Regex.group 1 rword]) 1
         (some "function") (some (Dir.push (S "simple_func"))),
       mkRule (rcat [rlit "component", rsp1, Regex.group 1 rword, rsp0, rlit "is"]) 1
         (some "component") (some (Dir.push (S "component"))),
       -- r'subtype\s+(\w+)\s+is\s+(\w+)'
       mkRule (rcat [rlit "subtype", rsp1, Regex.group 1 rword, rsp1, rlit "is", rsp1,
           Regex.group 2 rword]) 2 (some "subtype") none,
       -- r'constant\s+(\w+)\s+:\s+(\w+)'
       mkRule (rcat [rlit "constant", rsp1, Regex.group 1 rword, rsp1, Regex.chr ':', rsp1,
           Regex.group 2 rword]) 2 (some "constant") none,
       -- r'type\s+(\w+)\s*is'
       mkRule (rcat [rlit "type", rsp1, Regex.group 1 rword, rsp0, rlit "is"]) 1
         (some "type") (some (Dir.push (S "type_decl"))),
       -- r'end\s+package'
       mkRule (rcat [rlit "end", rsp1, rlit "package"]) 0 none (some (Dir.pop 1)),
       -- r'--#+(.*)\n'
       mkRule (rcat [rlit "--", Regex.chr '#', Regex.star (Regex.chr '#'),
           Regex.group 1 rdots, Regex.chr '\n']) 1 (some "metacomment") none,
       mkRule (rcat [rlit "--", rdots, Regex.chr '\n']) 0 none none ]),
    (S "type_decl",
     [ mkRule (rlit "array") 0 (some "array_type") (some (Dir.pop 1)),
       mkRule (rlit "file") 0 (some "file_type") (some (Dir.pop 1)),
       mkRule (rlit "access") 0 (some "access_type") (some (Dir.pop 1)),
       mkRule (rlit "record") 0 (some "record_type") (some (Dir.pop 1)),
       mkRule (rlit "range") 0 (some "range_type") (some (Dir.pop 1)),
       mkRule (Regex.chr '(') 0 (some "enum_type") (some (Dir.pop 1)),
       mkRule (Regex.chr ';') 0 (some "incomplete_type") (some (Dir.pop 1)),
       mkRule (rcat [rlit "--", rdots, Regex.chr '\n']) 0 none none ]),
    (S "param_list",
     [ -- r'\s*((?:variable|signal|constant|file)\s+)?(\w+)\s*'
       mkRule (rcat [rsp0, Regex.opt (Regex.group 1 (Regex.seq rclasses rsp1)),
           Regex.group 2 rword, rsp0]) 2 (some "param") none,
       -- r'\s*,\s*'
       mkRule (rcat [rsp0, Regex.chr ',', rsp0]) 0 none none,
       -- r'\s*:\s*'
       mkRule (rcat [rsp0, Regex.chr ':', rsp0]) 0 none (some (Dir.push (S "param_type"))),
       mkRule (rcat [rlit "--", rdots, Regex.chr '\n']) 0 none none ]),
    (S "param_type",
     [ -- r'\s*((?:in|out|inout|buffer)\s+)?(\w+)\s*'
       mkRule (rcat [rsp0, Regex.opt (Regex.group 1 (Regex.seq rmodes rsp1)),
           Regex.group 2 rword, rsp0]) 2 (some "param_type") none,
       mkRule (rcat [rsp0, Regex.chr ';', rsp0]) 0 none (some (Dir.pop 1)),
       -- r"\s*:=\s*('.'|[^\s;)]+)"
       mkRule (rcat [rsp0, rlit ":=", rsp0, Regex.group 1 (Regex.alt
           (rcat [Regex.chr (Char.ofNat 39), rdot, Regex.chr (Char.ofNat 39)])
           (Regex.seq (Regex.cls (fun c => !isPySpace c && c ≠ ';' && c ≠ ')'))
             (Regex.star (Regex.cls (fun c => !isPySpace c && c ≠ ';' && c ≠ ')')))))]) 1
         (some "param_default") none,
       -- r'\)\s*(?:return\s+(\w+)\s*)?;'
       mkRule (rcat [Regex.chr ')', rsp0,
           Regex.opt (rcat [rlit "return", rsp1, Regex.group 1 rword, rsp0]),
           Regex.chr ';']) 1 (some "end_subprogram") (some (Dir.pop 2)),
       -- r'\)\s*(?:return\s+(\w+)\s*)?is'
       mkRule (rcat [Regex.chr ')', rsp0,
           Regex.opt (rcat [rlit "return", rsp1, Regex.group 1 rword, rsp0]),
           rlit "is"]) 1 none (some (Dir.pop 2)),
       mkRule (rcat [rlit "--", rdots, Regex.chr '\n']) 0 none none ]),
    (S "simple_func",
     [ -- r'\s+return\s+(\w+)\s*;'
       mkRule (rcat [rsp1, rlit "return", rsp1, Regex.group 1 rword, rsp0, Regex.chr ';']) 1
         (some "end_subprogram") (some (Dir.pop 1)),
       -- r'\s+return\s+(\w+)\s+is'
       mkRule (rcat [rsp1, rlit "return", rsp1, Regex.group 1 rword, rsp1, rlit "is"]) 1
         none (some (Dir.pop 1)),
       mkRule (rcat [rlit "--", rdots, Regex.chr '\n']) 0 none none ]),
    (S "component",
     [ -- r'generic\s*\('
       mkRule (rcat [rlit "generic", rsp0, Regex.chr '(']) 0 none
         (some (Dir.push (S "generic_list"))),
       -- r'port\s*\('
       mkRule (rcat [rlit "port", rsp0, Regex.chr '(']) 0 none
         (some (Dir.push (S "port_list"))),
       -- r'end\s+component\s*;'
       mkRule (rcat [rlit "end", rsp1, rlit "component", rsp0, Regex.chr ';']) 0
         (some "end_component") (some (Dir.pop 1)),
       mkRule (rcat [rlit "--", rdots, Regex.chr '\n']) 0 none none ]),
    (S "generic_list",
     [ -- r'\s*(\w+)\s*'
       mkRule (rcat [rsp0, Regex.group 1 rword, rsp0]) 1 (some "generic_param") none,
       mkRule (rcat [rsp0, Regex.chr ',', rsp0]) 0 none none,
       mkRule (rcat [rsp0, Regex.chr ':', rsp0]) 0 none
         (some (Dir.push (S "generic_param_type"))),
       mkRule (rcat [rlit "--", Regex.chr '#', Regex.star (Regex.chr '#'),
           Regex.group 1 rdots, Regex.chr '\n']) 1 (some "metacomment") none,
       mkRule (rcat [rlit "--", rdots, Regex.chr '\n']) 0 none none ]),
    (S "generic_param_type",
     [ mkRule (rcat [rsp0, Regex.group 1 rword, rsp0]) 1 (some "generic_param_type") none,
       mkRule (rcat [rsp0, Regex.chr ';', rsp0]) 0 none (some (Dir.pop 1)),
       -- r"\s*:=\s*([\w']+)"
       mkRule (rcat [rsp0, rlit ":=", rsp0,
           Regex.group 1 (Regex.seq (Regex.cls (fun c => isPyWord c || c = Char.ofNat 39))
             (Regex.star (Regex.cls (fun c => isPyWord c || c = Char.ofNat 39))))]) 1
         (some "generic_param_default") none,
       -- r'\)\s*;'
       mkRule (rcat [Regex.chr ')', rsp0, Regex.chr ';']) 0 (some "end_generic")
         (some (Dir.pop 2)),
       mkRule (rcat [rlit "--", Regex.chr '#', Regex.star (Regex.chr '#'),
           Regex.group 1 rdots, Regex.chr '\n']) 1 (some "metacomment") none,
       mkRule (rcat [rlit "--", rdots, Regex.chr '\n']) 0 none none ]),
    (S "port_list",
     [ mkRule (rcat [rsp0, Regex.group 1 rword, rsp0]) 1 (some "port_param") none,
       mkRule (rcat [rsp0, Regex.chr ',', rsp0]) 0 none none,
       mkRule (rcat [rsp0, Regex.chr ':', rsp0]) 0 none
         (some (Dir.push (S "port_param_type"))),
       -- r'--#\s*{{(.*)}}\n'  (braces written via obr and cbr)
       mkRule (rcat [rlit "--#", rsp0, Regex.chr obr, Regex.chr obr,
           Regex.group 1 rdots, Regex.chr cbr, Regex.chr cbr, Regex.chr '\n']) 1
         (some "section_meta") none,
       mkRule (rcat [rlit "--", Regex.chr '#', Regex.star (Regex.chr '#'),
           Regex.group 1 rdots, Regex.chr '\n']) 1 (some "metacomment") none,
       mkRule (rcat [rlit "--", rdots, Regex.chr '\n']) 0 none none ]),
    (S "port_param_type",
     [ -- r'\s*(in|out|inout|buffer)\s+(\w+)\s*\('
       mkRule (rcat [rsp0, Regex.group 1 rmodes, rsp1, Regex.group 2 rword, rsp0,
           Regex.chr '(']) 2 (some "port_array_param_type")
         (some (Dir.push (S "array_range"))),
       -- r'\s*(in|out|inout|buffer)\s+(\w+)\s*'
       mkRule (rcat [rsp0, Regex.group 1 rmodes, rsp1, Regex.group 2 rword, rsp0]) 2
         (some "port_param_type") none,
       mkRule (rcat [rsp0, Regex.chr ';', rsp0]) 0 none (some (Dir.pop 1)),
       mkRule (rcat [rsp0, rlit ":=", rsp0,
           Regex.group 1 (Regex.seq (Regex.cls (fun c => isPyWord c || c = Char.ofNat 39))
             (Regex.star (Regex.cls (fun c => isPyWord c || c = Char.ofNat 39))))]) 1
         (some "port_param_default") none,
       mkRule (rcat [Regex.chr ')', rsp0, Regex.chr ';']) 0 (some "end_port")
         (some (Dir.pop 2)),
       mkRule (rcat [rlit "--", Regex.chr '#', Regex.star (Regex.chr '#'),
           Regex.group 1 rdots, Regex.chr '\n']) 1 (some "metacomment") none,
       mkRule (rcat [rlit "--", rdots, Regex.chr '\n']) 0 none none ]),
    (S "array_range",
     [ mkRule (Regex.chr '(') 0 (some "open_paren") (some (Dir.push (S "nested_parens"))),
       mkRule (Regex.chr ')') 0 (some "array_range_end") (some (Dir.pop 1)) ]),
    (S "nested_parens",
     [ mkRule (Regex.chr '(') 0 (some "open_paren") (some (Dir.push (S "nested_parens"))),
       mkRule (Regex.chr ')') 0 (some "close_paren") (some (Dir.pop 1)) ]) ]

/-- Rules of a named state. -/
def stateRules (name : Str) : List Rule :=
  match vhdl_tokens.lookup name with
  | some rs => rs
  | none => []

/-- `VhdlParameter` of the source: a subprogram parameter, generic or port.
Fields that Python initializes to `None` or fills from regex groups (which
may be `None`) are `Option`s. -/
structure VhdlParameter where
  name : Option Str
  mode : Option Str
  data_type : Option Str
  default_value : Option Str
  desc : Option Str
deriving DecidableEq

/-- The variant family of `VhdlObject` subclasses.  The `desc` of an object
is the list of buffered metacomment texts passed at construction
(`VhdlPackage` is constructed without one, hence `none` there); each
metacomment text is itself a regex group, hence an `Option Str`. -/
inductive VhdlObject where
  | package (name : Option Str) (desc : Option (List (Option Str)))
  | vtype (name : Option Str) (type_of : Str) (desc : Option (List (Option Str)))
  | vsubtype (name : Option Str) (base_type : Option Str) (desc : Option (List (Option Str)))
  | vconstant (name : Option Str) (base_type : Option Str) (desc : Option (List (Option Str)))
  | vfunction (name : Option Str) (parameters : List VhdlParameter)
      (return_type : Option Str) (desc : Option (List (Option Str)))
  | vprocedure (name : Option Str) (parameters : List VhdlParameter)
      (desc : Option (List (Option Str)))
  | component (name : Option Str) (ports : List VhdlParameter)
      (generics : List VhdlParameter) (sections : List (Nat × Option Str))
      (desc : Option (List (Option Str)))
deriving DecidableEq

/-- Python `dict(pairs)`: first-occurrence key order, last value wins. -/
def pydict (pairs : List (Nat × Option Str)) : List (Nat × Option Str) :=
  pairs.foldl (fun acc kv =>
    if acc.any (fun kv' => kv'.1 = kv.1) then
      acc.map (fun kv' => if kv'.1 = kv.1 then kv else kv')
    else acc ++ [kv]) []

/-- Which list the mutable `last_item` reference of `parse_vhdl` points
into.  In the source `last_item` is an object reference; it is only ever
assigned `generics[-1]`, `ports[-1]` or `None`, and the lists only grow at
the same program points, so the reference is always the last element of
the named list. -/
inductive LastItem where
  | gen : LastItem
  | port : LastItem
deriving DecidableEq

/-- The transient local variables of `parse_vhdl`, carried across token
events.  Python keeps subprogram parameters (as `VhdlParameter`s) and
generic/port names (as strings) in the single dynamically typed list
`param_items`; the two disjoint uses are split here into `param_items`
and `gp_items` (the `component` action resets both, as the source resets
the one shared list). -/
structure PState where
  name : Option Str
  kind : Option Str
  saved_type : Option Str
  metacomments : List (Option Str)
  parameters : List VhdlParameter
  param_items : List VhdlParameter
  gp_items : List (Option Str)
  generics : List VhdlParameter
  ports : List VhdlParameter
  sections : List (Nat × Option Str)
  port_param_index : Nat
  last_item : Option LastItem
  mode : Option Str
  ptype : Option Str
  array_range_start_pos : Nat
  objects : List VhdlObject

/-- Initial interpreter state, as at the top of `parse_vhdl`. -/
def initPState : PState :=
  { name := none, kind := none, saved_type := none, metacomments := []
    parameters := [], param_items := [], gp_items := [], generics := []
    ports := [], sections := [], port_param_index := 0, last_item := none
    mode := none, ptype := none, array_range_start_pos := 0, objects := [] }

/-- Set the description of the last element of a parameter list, as the
mutation `last_item.desc = groups[0]` does through the reference (the
source would raise an IndexError assigning `generics[-1]`/`ports[-1]` on
an empty list; that point is unreachable from the grammar). -/
def setLastDesc (d : Option Str) : List VhdlParameter → List VhdlParameter
  | [] => []
  | [p] => [{ p with desc := d }]
  | p :: ps => p :: setLastDesc d ps

/-- The event-interpretation body of `parse_vhdl`: one `if/elif` dispatch
on the action tag, updating the transient state.  `startP`/`endP` are the
two components of the event position (match start offset and inclusive
end offset); `groups` is the tuple of regex groups.  Action tags that the
source does not handle (`open_paren`, `close_paren`, `end_port`,
`end_generic`, `generic_param_default`, `port_param_default`) fall
through and leave the state unchanged. -/
def vhdl_action (text : Str) (startP endP : Nat) (st : PState) (a : Str)
    (groups : List (Option Str)) : PState :=
  if a = S "metacomment" then
    match st.last_item with
    | none => { st with metacomments := st.metacomments ++ [groups.getD 0 none] }
    | some LastItem.gen => { st with generics := setLastDesc (groups.getD 0 none) st.generics }
    | some LastItem.port => { st with ports := setLastDesc (groups.getD 0 none) st.ports }
  else if a = S "section_meta" then
    { st with sections := st.sections ++ [(st.port_param_index, groups.getD 0 none)] }
  else if a = S "function" then
    { st with
      kind := some (S "function")
      name := groups.getD 0 none
      param_items := []
      parameters := [] }
  else if a = S "procedure" then
    { st with
      kind := some (S "procedure")
      name := groups.getD 0 none
      param_items := []
      parameters := [] }
  else if a = S "param" then
    { st with
      parameters := st.parameters ++ st.param_items
      param_items := [{ name := groups.getD 1 none, mode := none, data_type := none,
                        default_value := none, desc := none }] }
  else if a = S "param_type" then
    let mode := (groups.getD 0 none).map pyStrip
    let ptype := groups.getD 1 none
    { st with
      mode := mode
      ptype := ptype
      param_items := st.param_items.map (fun p => { p with mode := mode, data_type := ptype }) }
  else if a = S "param_default" then
    let upd := st.param_items.map (fun p => { p with default_value := groups.getD 0 none })
    { st with param_items := upd }
  else if a = S "end_subprogram" then
    let parameters := st.parameters ++ st.param_items
    let vobj := if st.kind = some (S "function") then
        VhdlObject.vfunction st.name parameters (groups.getD 0 none) (some st.metacomments)
      else
        VhdlObject.vprocedure st.name parameters (some st.metacomments)
    { st with
      objects := st.objects ++ [vobj]
      metacomments := []
      parameters := []
      param_items := []
      kind := none
      name := none }
  else if a = S "component" then
    { st with
      kind := some (S "component")
      name := groups.getD 0 none
      generics := []
      ports := []
      param_items := []
      gp_items := []
      sections := []
      port_param_index := 0 }
  else if a = S "generic_param" then
    { st with gp_items := st.gp_items ++ [groups.getD 0 none] }
  else if a = S "generic_param_type" then
    let ptype := groups.getD 0 none
    let gens := st.generics ++ st.gp_items.map (fun i =>
      { name := i, mode := some (S "in"), data_type := ptype,
        default_value := none, desc := none })
    { st with
      ptype := ptype
      generics := gens
      gp_items := []
      last_item := some LastItem.gen }
  else if a = S "port_param" then
    { st with
      gp_items := st.gp_items ++ [groups.getD 0 none]
      port_param_index := st.port_param_index + 1 }
  else if a = S "port_param_type" then
    let mode := groups.getD 0 none
    let ptype := groups.getD 1 none
    let ports := st.ports ++ st.gp_items.map (fun i =>
      { name := i, mode := mode, data_type := ptype,
        default_value := none, desc := none })
    { st with
      mode := mode
      ptype := ptype
      ports := ports
      gp_items := []
      last_item := some LastItem.port }
  else if a = S "port_array_param_type" then
    let mode := groups.getD 0 none
    let ptype := groups.getD 1 none
    { st with mode := mode, ptype := ptype, array_range_start_pos := endP }
  else if a = S "array_range_end" then
    let arange := pySlice text st.array_range_start_pos (startP + 1)
    -- the source computes `ptype + arange`; on `ptype = None` Python would
    -- raise a TypeError (unreachable from the grammar)
    let ports := st.ports ++ st.gp_items.map (fun i =>
      { name := i, mode := st.mode, data_type := st.ptype.map (fun t => t ++ arange),
        default_value := none, desc := none })
    { st with
      ports := ports
      gp_items := []
      last_item := some LastItem.port }
  else if a = S "end_component" then
    let vobj := VhdlObject.component st.name st.ports st.generics (pydict st.sections)
      (some st.metacomments)
    { st with
      objects := st.objects ++ [vobj]
      last_item := none
      metacomments := [] }
  else if a = S "package" then
    { st with
      objects := st.objects ++ [VhdlObject.package (groups.getD 0 none) none]
      kind := none
      name := none }
  else if a = S "type" then
    { st with saved_type := groups.getD 0 none }
  else if a = S "array_type" || a = S "file_type" || a = S "access_type" ||
      a = S "record_type" || a = S "range_type" || a = S "enum_type" ||
      a = S "incomplete_type" then
    { st with
      objects := st.objects ++ [VhdlObject.vtype st.saved_type a (some st.metacomments)]
      kind := none
      name := none
      metacomments := [] }
  else if a = S "subtype" then
    let vobj := VhdlObject.vsubtype (groups.getD 0 none) (groups.getD 1 none)
      (some st.metacomments)
    { st with
      objects := st.objects ++ [vobj]
      kind := none
      name := none
      metacomments := [] }
  else if a = S "constant" then
    let vobj := VhdlObject.vconstant (groups.getD 0 none) (groups.getD 1 none)
      (some st.metacomments)
    { st with
      objects := st.objects ++ [vobj]
      kind := none
      name := none
      metacomments := [] }
  else st

/-- Apply a rule's state-stack directive. -/
def applyDir : Option Dir → List Str → List Str
  | none, stack => stack
  | some (Dir.push s), stack => s :: stack
  | some (Dir.pop n), stack => stack.drop n

/-- Modelled from the spec: the `MiniLexer.run` engine of the external
`minilexer` module (not under src/), fused with the event loop of
`parse_vhdl` that consumes its generator.  Per the spec: a state stack
starts at `[root]`; at each cursor position the active (top) state's rules
are tried in table order, anchored; on the first match the cursor advances
past the match, an event `(start offset, inclusive end offset, action,
groups)` is delivered to the interpreter when the action tag is not none,
and the directive is applied; the run ends at end of input regardless of
stack depth.  One deliberate divergence from the spec's §4.1 wording: when
no rule of the active state matches, the spec says to fail loudly, but the
grammar table of src/ only functions if the cursor instead advances one
character silently (the `array_range`/`nested_parens` states recognize
nothing but parentheses and rely on the skipped text being recovered by
raw-text slicing; whitespace between declarations matches no rule of the
`component` or `package` states); the engine therefore skips, and the
divergence is recorded against the corresponding claim.  Skipped offsets
are returned alongside the final state so that skipping is observable.
`fuel` bounds the number of iterations; every rule of the table consumes
at least one character, so `text length + 1` is never exhausted. -/
def vhdl_loop (text : Str) : Nat → List Str → Str → Nat → PState → PState × List Nat
  | 0, _, _, _, st => (st, [])
  | _ + 1, _, [], _, st => (st, [])
  | fuel + 1, stack, c :: rest, pos, st =>
    match tryRules ((c :: rest).length + 2) (stateRules (stack.headD (S "root"))) (c :: rest) with
    | none =>
        let r := vhdl_loop text fuel stack rest (pos + 1) st
        (r.1, pos :: r.2)
    | some (n, act, groups, dir) =>
        let st' := match act with
          | none => st
          | some a => vhdl_action text pos (pos + n - 1) st a groups
        vhdl_loop text fuel (applyDir dir stack) ((c :: rest).drop n) (pos + n) st'

/-- `parse_vhdl` of the source: run the lexer-interpreter loop over the
whole text and return the completed objects. -/
def parse_vhdl (text : Str) : List VhdlObject :=
  (vhdl_loop text (text.length + 1) [S "root"] text 0 initPState).1.objects

/-- The offsets at which the lexer advanced without any rule matching
(instrumentation of the engine model; empty iff no character was skipped). -/
def vhdl_skips (text : Str) : List Nat :=
  (vhdl_loop text (text.length + 1) [S "root"] text 0 initPState).2

/-
The `VhdlExtractor` façade.  Its array-type registry is a Python set of
type-name strings; it is modelled as a duplicate-free list built by
`setAdd`, with Python `in` as `List.contains`.
-/

/-- Add an element to a set (Python `set.add`). -/
def setAdd (s : List Str) (x : Str) : List Str :=
  if s.contains x then s else s ++ [x]

/-- Union of a set with a list of new elements (Python `set |= ...`). -/
def setUnion (s : List Str) (xs : List Str) : List Str := xs.foldl setAdd s

/-- The seed registry of `VhdlExtractor.__init__`. -/
def default_array_types : List Str :=
  [S "std_ulogic_vector", S "std_logic_vector", S "signed", S "unsigned", S "bit_vector"]

/-- `VhdlExtractor.__init__(array_types)`: the seed set united with the
caller-provided names. -/
def extractorInit (array_types : List Str) : List Str :=
  setUnion default_array_types array_types

/-- `VhdlExtractor.is_array`: membership test of the lowercased query in
the registry (the stored names are not lowercased). -/
def is_array (reg : List Str) (data_type : Str) : Bool :=
  reg.contains (pyLower data_type)

/-
`load_array_types` reads a file and runs `ast.literal_eval` over its
contents inside `try: ... except SyntaxError: type_defs = {}`, then calls
`add_array_types`.  The Python value universe and error outcomes involved
are modelled below; `ast.literal_eval` itself is external library code,
so `load_array_types` takes the outcome of that call as its argument.
-/

/-- A Python value as produced by `ast.literal_eval` on registry files:
a dict, a list, a string, or an int. -/
inductive PyVal where
  | dict (pairs : List (PyVal × PyVal)) : PyVal
  | list (elems : List PyVal) : PyVal
  | strv (s : Str) : PyVal
  | intv (n : Int) : PyVal

/-- Equality of a Python value with a given string. -/
def isStrv (key : Str) : PyVal → Bool
  | PyVal.strv s => s == key
  | _ => false

/-- Python exception classes relevant to the registry loader. -/
inductive PyErr where
  | syntaxError : PyErr
  | valueError : PyErr
  | typeError : PyErr
deriving DecidableEq

/-- Python substring test `needle in haystack`. -/
def pySubstr (needle : Str) : Str → Bool
  | [] => List.isPrefixOf needle []
  | c :: rest => List.isPrefixOf needle (c :: rest) || pySubstr needle rest

/-- Python `key in v` for a string key: key lookup for a dict, membership
for a list, substring test for a string, and a TypeError for an int. -/
def pyContains (key : Str) : PyVal → Except PyErr Bool
  | PyVal.dict pairs => Except.ok (pairs.any (fun kv => isStrv key kv.1))
  | PyVal.list elems => Except.ok (elems.any (fun e => isStrv key e))
  | PyVal.strv s => Except.ok (pySubstr key s)
  | PyVal.intv _ => Except.error PyErr.typeError

/-- Python `v[key]` for a string key, after a successful membership test:
dict lookup; indexing a list or string by a string, or an int at all,
raises a TypeError. -/
def pyIndex (key : Str) : PyVal → Except PyErr PyVal
  | PyVal.dict pairs =>
      match pairs.filter (fun kv => isStrv key kv.1) with
      | [] => Except.error PyErr.typeError
      | kv :: _ => Except.ok kv.2
  | PyVal.list _ => Except.error PyErr.typeError
  | PyVal.strv _ => Except.error PyErr.typeError
  | PyVal.intv _ => Except.error PyErr.typeError

/-- Python `set(v)` flattened to name strings: the elements of a list (a
non-string element would populate the set with a non-string, which no
claim exercises, so only string elements are represented), the characters
of a string, the keys of a dict; `set(int)` raises a TypeError. -/
def pyToStrSet : PyVal → Except PyErr (List Str)
  | PyVal.list elems => Except.ok (elems.filterMap (fun e =>
      match e with
      | PyVal.strv s => some s
      | _ => none))
  | PyVal.strv s => Except.ok (s.map (fun c => [c]))
  | PyVal.dict pairs => Except.ok (pairs.filterMap (fun kv =>
      match kv.1 with
      | PyVal.strv s => some s
      | _ => none))
  | PyVal.intv _ => Except.error PyErr.typeError

/-- `VhdlExtractor.add_array_types(type_defs)`: if `'arrays' in type_defs`
then union the registry with `set(type_defs['arrays'])`. -/
def add_array_types (type_defs : PyVal) (reg : List Str) : Except PyErr (List Str) := do
  let c ← pyContains (S "arrays") type_defs
  if c then
    let v ← pyIndex (S "arrays") type_defs
    let xs ← pyToStrSet v
    return setUnion reg xs
  else
    return reg

/-- `VhdlExtractor.load_array_types(fname)`: the file's contents are fed
to `ast.literal_eval` inside `try: ... except SyntaxError`, so only a
SyntaxError is replaced by `{}`; any other outcome of the call (modelled
here as this function's argument) flows on into `add_array_types`, and
any error it raises propagates. -/
def load_array_types (literalEvalOutcome : Except PyErr PyVal) (reg : List Str) :
    Except PyErr (List Str) :=
  match literalEvalOutcome with
  | Except.error PyErr.syntaxError => add_array_types (PyVal.dict []) reg
  | Except.error e => Except.error e
  | Except.ok v => add_array_types v reg

/-
`register_array_types` scans parsed objects: the name of every `VhdlType`
with `type_of == 'array_type'` is added to the registry; then for every
`(k, v)` in the dict `{o.name: o.base_type}` over the `VhdlSubtype`
objects, the loop `while v in subtypes: v = subtypes[v]` chases base
types, and `k` is added when the final `v` is already registered.  The
`while` loop has no termination guard: on a subtype cycle it never
returns.  The chase is therefore modelled with explicit fuel, and
`register_array_types` returns `none` exactly when fuel `len(subtypes)+1`
is exhausted — which (see the termination theorem) happens only when the
chain re-enters itself, i.e. exactly when the Python loop diverges.
-/

/-- Python dict comprehension `{o.name: o.base_type for o in subtypes}`:
first-occurrence key order, last value wins. -/
def pydictS (pairs : List (Option Str × Option Str)) : List (Option Str × Option Str) :=
  pairs.foldl (fun acc kv =>
    if acc.any (fun kv' => kv'.1 = kv.1) then
      acc.map (fun kv' => if kv'.1 = kv.1 then kv else kv')
    else acc ++ [kv]) []

/-- The subtype dict of `register_array_types`. -/
def subtypesOf (objects : List VhdlObject) : List (Option Str × Option Str) :=
  pydictS (objects.filterMap (fun o =>
    match o with
    | VhdlObject.vsubtype n b _ => some (n, b)
    | _ => none))

/-- Dict lookup `subtypes[v]` (by the first matching key; `pydictS` keys
are unique). -/
def slookup (st : List (Option Str × Option Str)) (v : Option Str) : Option (Option Str) :=
  match st.filter (fun kv => kv.1 = v) with
  | [] => none
  | kv :: _ => some kv.2

/-- The loop `while v in subtypes: v = subtypes[v]`, with fuel: `none`
means the fuel ran out with the guard still true. -/
def followGo : Nat → List (Option Str × Option Str) → Option Str → Option (Option Str)
  | 0, _, _ => none
  | n + 1, st, v =>
      match slookup st v with
      | none => some v
      | some v' => followGo n st v'

/-- Names of array `VhdlType` objects, added first. -/
def arrayTypeNames (objects : List VhdlObject) : List Str :=
  objects.filterMap (fun o =>
    match o with
    | VhdlObject.vtype (some n) t _ => if t = S "array_type" then some n else none
    | _ => none)

/-- `VhdlExtractor.register_array_types(objects)`; `none` when the Python
loop would not terminate.  A `VhdlType` whose name is `None` cannot arise
from the grammar (the `type` action always captures a word), so only
`some`-named types are added; a subtype key or final chain value that is
`None` is likewise a grammar impossibility and is skipped. -/
def register_array_types (objects : List VhdlObject) (reg : List Str) :
    Option (List Str) :=
  let reg1 := (arrayTypeNames objects).foldl setAdd reg
  let st := subtypesOf objects
  st.foldlM (fun r kv =>
    match followGo (st.length + 1) st kv.2 with
    | none => none
    | some fin =>
        match fin, kv.1 with
        | some finName, some kName =>
            some (if r.contains finName then setAdd r kName else r)
        | _, _ => some r) reg1

/-- `VhdlExtractor.extract_components(text)`: parse, register array types,
filter the components.  `none` when `register_array_types` diverges. -/
def extract_components (text : Str) (reg : List Str) :
    Option (List VhdlObject × List Str) :=
  let objects := parse_vhdl text
  match register_array_types objects reg with
  | none => none
  | some reg' => some (objects.filter (fun o =>
      match o with
      | VhdlObject.component _ _ _ _ _ => true
      | _ => false), reg')

/-
Concrete input texts of the claims.
-/

/-- The overloaded-operator function declaration of the spec's end-to-end
example (claim C1); the name contains literal double quotes. -/
def c1_text : Str :=
  S "function " ++ [qc, '+', qc] ++ S " (l : integer; r : integer) return integer;"

/-- The adder component of the spec's end-to-end example (claim C2). -/
def c2_text : Str :=
  S "component adder is\n  generic ( WIDTH : integer := 8 );\n  port ( a : in std_logic_vector(WIDTH-1 downto 0);\n         b : in std_logic_vector(WIDTH-1 downto 0);\n         sum : out std_logic_vector(WIDTH-1 downto 0) );\nend component;"

/-- The array-ranged scalar type text shared by the three adder ports. -/
def slv_range : Str := S "std_logic_vector(WIDTH-1 downto 0)"

/-- A text whose metacomment is buffered inside package `p`, after which
the next object created is package `q` (claim C4). -/
def c4_package_text : Str :=
  S "package p is--## doc\nend packagepackage q isfunction f (a : integer) return integer;end package"

/-- A text with a metacomment immediately following a subprogram
parameter (claim C4). -/
def c4_param_text : Str :=
  S "package p isfunction f (a : integer --## pdoc\n) return integer;end package"

/-- A component whose port list declares a name, carries a section marker,
and then closes without ever completing the port's type (claim C8);
braces of the section marker written via code points. -/
def c8_text : Str :=
  S "component c isport ( a --#" ++ [obr, obr, 'X', cbr, cbr] ++ S "\n : );end component;"

/-- A package declaring array type `A` and the subtype chain
`C -> B -> A` in upper case (claim C6). -/
def c6_upper_text : Str :=
  S "package k istype A is array (0 to 1) of bit;subtype B is A;subtype C is B;end package"

/-- The same chain declared in lower case (claim C6). -/
def c6_lower_text : Str :=
  S "package k istype a is array (0 to 1) of bit;subtype b is a;subtype c is b;end package"

/-- A package declaring the subtype cycle `a -> b -> a` (claim C10). -/
def c10_cycle_text : Str :=
  S "package k issubtype a is b;subtype b is a;end package"

/-- A component with two section markers interleaved with two ports that
are both completed with a type (the well-formed case of claim C8). -/
def c8_good_text : Str :=
  S "component d isport ( --#" ++ [obr, obr, 'G', '1', cbr, cbr] ++
  S "\n x : in bit;--#" ++ [obr, obr, 'G', '2', cbr, cbr] ++
  S "\n y : in bit );end component;"

/-- The registry file value `{'arrays': ['Foo']}` (claim C7). -/
def c7_type_defs : PyVal :=
  PyVal.dict [(PyVal.strv (S "arrays"), PyVal.list [PyVal.strv (S "Foo")])]

/-- `i`-fold application of the subtype dict as a partial map: the value
chased by `i` iterations of `v = subtypes[v]`, or `none` if a lookup
fails before the `i`-th step. -/
def iterN (st : List (Option Str × Option Str)) : Nat → Option Str → Option (Option Str)
  | 0, v => some v
  | n + 1, v =>
      match slookup st v with
      | none => none
      | some v' => iterN st n v'

/-- Acyclicity of the subtype relation: no name with an entry in the dict
is reachable from itself in one or more chase steps.  This is the
premise of claim C10. -/
def AcyclicSubtypes (st : List (Option Str × Option Str)) : Prop :=
  ∀ v : Option Str, (slookup st v).isSome = true →
    ∀ n : Nat, iterN st (n + 1) v ≠ some v

/-- Balanced parenthesis strings over arbitrary filler characters: the
range expressions of claim C5.  Arbitrary nesting depth is generated, so
every depth up to (at least) 3 is covered. -/
inductive BalParen : Str → Prop where
  | nil : BalParen []
  | chr {c : Char} {s : Str} : c ≠ '(' → c ≠ ')' → BalParen s → BalParen (c :: s)
  | wrap {s t : Str} : BalParen s → BalParen t → BalParen ('(' :: (s ++ ')' :: t))

/-- The text of claim C5's port declaration up to and including the
opening parenthesis of the array range (32 characters; the parenthesis
is at offset 31). -/
def c5_pre : Str := S "component c isport ( p : in vec("

/-- The text of claim C5's component after the range expression: its
matching closing parenthesis and the rest of the component. -/
def c5_post : Str := S "));end component;"

/-- The interpreter state after the five lexer steps that consume
`c5_pre`: inside component `c`, one declared port name `p`, remembered
mode `in` and scalar type `vec`, range start offset 31. -/
def c5_state : PState :=
  { initPState with
    kind := some (S "component")
    name := some (S "c")
    gp_items := [some (S "p")]
    port_param_index := 1
    mode := some (S "in")
    ptype := some (S "vec")
    array_range_start_pos := 31 }

/-- The port that `array_range_end` creates at position `pos` of `text`
for the `c5_pre` template. -/
def c5_port (text : Str) (pos : Nat) : VhdlParameter :=
  { name := some (S "p"), mode := some (S "in"),
    data_type := some (S "vec" ++ pySlice text 31 (pos + 1)),
    default_value := none, desc := none }

/-- Claim C1: parsing the overloaded-operator function declaration yields
exactly one object, a Function named by the quoted string (quotes
included), with return type `integer` and the two parameters `l` then `r`
in order, each typed `integer`, with no default value, and with the mode
field explicitly absent (`none`), not defaulted to `in`. -/
theorem C1_function_overload_parse : parse_vhdl c1_text =
    [VhdlObject.vfunction (some [qc, '+', qc])
      [{ name := some (S "l"), mode := none, data_type := some (S "integer"),
         default_value := none, desc := none },
       { name := some (S "r"), mode := none, data_type := some (S "integer"),
         default_value := none, desc := none }]
      (some (S "integer")) (some [])] := by decide

/-- Claim C2, counterexample: the adder example parses to a single
Component whose single generic `WIDTH` has `default_value = none`, not
`8`: the grammar emits a `generic_param_default` token for `:= 8`, but
`parse_vhdl` has no handler for that action tag, so the claimed default
`8` is never recorded. -/
theorem C2_generic_default_counterexample :
    (parse_vhdl c2_text).map (fun o =>
      match o with
      | VhdlObject.component _ _ gens _ _ => gens.map (fun g => g.default_value)
      | _ => []) = [[none]] ∧
    (parse_vhdl c2_text).length = 1 := by
  refine ⟨by decide, by decide⟩

/-- Claim C2, amended: the adder example parses to exactly one Component
named `adder`, with one generic `WIDTH` of implicit mode `in` and type
`integer` whose default value is `none` (the `:= 8` default is tokenized
but dropped by the interpreter), and three ports `a`, `b`, `sum` in
order, each of whose `data_type` is the scalar name followed verbatim by
`(WIDTH-1 downto 0)`. -/
theorem C2_adder_parse_amended : parse_vhdl c2_text =
    [VhdlObject.component (some (S "adder"))
      [{ name := some (S "a"), mode := some (S "in"), data_type := some slv_range,
         default_value := none, desc := none },
       { name := some (S "b"), mode := some (S "in"), data_type := some slv_range,
         default_value := none, desc := none },
       { name := some (S "sum"), mode := some (S "out"), data_type := some slv_range,
         default_value := none, desc := none }]
      [{ name := some (S "WIDTH"), mode := some (S "in"), data_type := some (S "integer"),
         default_value := none, desc := none }]
      [] (some [])] := by decide

/-- Claim C4, counterexample.  First input: inside package `p` a
metacomment is buffered with no target; the next object created is
package `q`, yet `q`'s description is `none` (the `package` action
constructs `VhdlPackage(groups[0])` without passing the buffer, which
instead survives and lands on the following function).  Second input: a
metacomment line immediately follows the subprogram parameter `a`, yet
the parameter's description stays `none` (the `param_list`/`param_type`
states have no metacomment rule, so the line is consumed as a plain
comment), contradicting the claim for both the Package case and the
subprogram-parameter case. -/
theorem C4_metacomment_counterexample :
    parse_vhdl c4_package_text =
      [VhdlObject.package (some (S "p")) none,
       VhdlObject.package (some (S "q")) none,
       VhdlObject.vfunction (some (S "f"))
         [{ name := some (S "a"), mode := none, data_type := some (S "integer"),
            default_value := none, desc := none }]
         (some (S "integer")) (some [some (S " doc")])] ∧
    parse_vhdl c4_param_text =
      [VhdlObject.package (some (S "p")) none,
       VhdlObject.vfunction (some (S "f"))
         [{ name := some (S "a"), mode := none, data_type := some (S "integer"),
            default_value := none, desc := none }]
         (some (S "integer")) (some [])] :=
  ⟨by decide, by decide⟩

/-- Claim C4, amended: a metacomment arriving with no attachment target is
buffered; every object-creating action other than `package` attaches the
buffer as the new object's description (and clears it), while the
`package` action creates its object with no description and leaves the
buffer for the following object.  A metacomment arriving while the last
Parameter reference points at a generic or port sets that Parameter's
description.  Subprogram parameters are never such a target: no rule of
the `param_list` or `param_type` lexer states carries the `metacomment`
action, so metacomment lines there are consumed silently. -/
theorem C4_metacomment_attachment_amended :
    (∀ (text : Str) (p1 p2 : Nat) (st : PState) (d : Option Str),
      vhdl_action text p1 p2 { st with last_item := none } (S "metacomment") [d] =
        { st with last_item := none, metacomments := st.metacomments ++ [d] }) ∧
    (∀ (text : Str) (p1 p2 : Nat) (st : PState) (d : Option Str),
      vhdl_action text p1 p2 { st with last_item := some LastItem.gen } (S "metacomment") [d] =
        { st with last_item := some LastItem.gen, generics := setLastDesc d st.generics }) ∧
    (∀ (text : Str) (p1 p2 : Nat) (st : PState) (d : Option Str),
      vhdl_action text p1 p2 { st with last_item := some LastItem.port } (S "metacomment") [d] =
        { st with last_item := some LastItem.port, ports := setLastDesc d st.ports }) ∧
    (∀ (text : Str) (p1 p2 : Nat) (st : PState) (g : Option Str),
      vhdl_action text p1 p2 st (S "package") [g] =
        { st with
          objects := st.objects ++ [VhdlObject.package g none]
          kind := none, name := none }) ∧
    (∀ (text : Str) (p1 p2 : Nat) (st : PState) (rt : Option Str),
      vhdl_action text p1 p2 { st with kind := some (S "function") } (S "end_subprogram") [rt] =
        { st with
          kind := none, name := none
          objects := st.objects ++ [VhdlObject.vfunction st.name (st.parameters ++ st.param_items) rt (some st.metacomments)]
          metacomments := [], parameters := [], param_items := [] }) ∧
    (∀ (text : Str) (p1 p2 : Nat) (st : PState) (rt : Option Str),
      vhdl_action text p1 p2 { st with kind := some (S "procedure") } (S "end_subprogram") [rt] =
        { st with
          kind := none, name := none
          objects := st.objects ++ [VhdlObject.vprocedure st.name (st.parameters ++ st.param_items) (some st.metacomments)]
          metacomments := [], parameters := [], param_items := [] }) ∧
    (∀ (text : Str) (p1 p2 : Nat) (st : PState) (n b : Option Str),
      vhdl_action text p1 p2 st (S "subtype") [n, b] =
        { st with
          objects := st.objects ++ [VhdlObject.vsubtype n b (some st.metacomments)]
          kind := none, name := none, metacomments := [] }) ∧
    (∀ (text : Str) (p1 p2 : Nat) (st : PState) (n b : Option Str),
      vhdl_action text p1 p2 st (S "constant") [n, b] =
        { st with
          objects := st.objects ++ [VhdlObject.vconstant n b (some st.metacomments)]
          kind := none, name := none, metacomments := [] }) ∧
    (∀ (text : Str) (p1 p2 : Nat) (st : PState),
      vhdl_action text p1 p2 st (S "array_type") [] =
        { st with
          objects := st.objects ++ [VhdlObject.vtype st.saved_type (S "array_type") (some st.metacomments)]
          kind := none, name := none, metacomments := [] }) ∧
    (∀ (text : Str) (p1 p2 : Nat) (st : PState),
      vhdl_action text p1 p2 st (S "end_component") [] =
        { st with
          objects := st.objects ++ [VhdlObject.component st.name st.ports st.generics (pydict st.sections) (some st.metacomments)]
          last_item := none, metacomments := [] }) ∧
    ((stateRules (S "param_list") ++ stateRules (S "param_type")).all
      (fun r => !(r.action == some (S "metacomment"))) = true) :=
  ⟨fun _ _ _ _ _ => rfl, fun _ _ _ _ _ => rfl, fun _ _ _ _ _ => rfl,
   fun _ _ _ _ _ => rfl, fun _ _ _ _ _ => rfl, fun _ _ _ _ _ => rfl,
   fun _ _ _ _ _ _ => rfl, fun _ _ _ _ _ _ => rfl, fun _ _ _ _ => rfl,
   fun _ _ _ _ => rfl, by decide⟩


/-- Claim C6, counterexample: after registering the parsed objects of the
upper-case chain `C -> B -> A` (with `A` an array type), the names `C`
and `B` are added to the registry set, but `is_array "C"` (and
`is_array "B"`) return `false`: `is_array` lowercases the query while
`register_array_types` stores names verbatim, so the claim's
`is_array("C") = true` fails. -/
theorem C6_case_counterexample :
    (register_array_types (parse_vhdl c6_upper_text) (extractorInit [])).map
      (fun reg => (reg.contains (S "C"), reg.contains (S "B"),
                   is_array reg (S "C"), is_array reg (S "B"))) =
      some (true, true, false, false) := by decide

/-- Claim C6, amended: base-type chains are indeed followed transitively —
registering the chain `C -> B -> A` adds both `C` and `B` to the registry
set — but `is_array` only reports a chain name when its registered form
is lower case: with the chain declared as `c -> b -> a`, both
`is_array "C"` and `is_array "B"` return `true` (the query is
lowercased), while with the upper-case declaration the membership test
misses the stored names. -/
theorem C6_subtype_transitivity_amended :
    (register_array_types (parse_vhdl c6_upper_text) (extractorInit [])).map
      (fun reg => (reg.contains (S "C"), reg.contains (S "B"))) = some (true, true) ∧
    (register_array_types (parse_vhdl c6_lower_text) (extractorInit [])).map
      (fun reg => (is_array reg (S "C"), is_array reg (S "B"))) = some (true, true) :=
  ⟨by decide, by decide⟩

/-- Claim C7, counterexample: after merging the loaded mapping
`{'arrays': ['Foo']}` into a fresh extractor, the name `Foo` is present
in the registry, yet `is_array` returns `false` for every casing variant
of it — `Foo` itself, `FOO`, and `foo` — because the query is lowercased
but the stored name is not. -/
theorem C7_case_counterexample :
    (match load_array_types (Except.ok c7_type_defs) (extractorInit []) with
     | Except.ok reg => (reg.contains (S "Foo"), is_array reg (S "Foo"),
                         is_array reg (S "FOO"), is_array reg (S "foo"))
     | Except.error _ => (false, true, true, true)) = (true, false, false, false) := by
  decide

/-- Claim C7, amended: the membership test is case-insensitive in the
query only — `is_array` lowercases the queried name and tests membership
of the result, so any two queries with the same lowercase form agree, and
a name stored in lower case is found under every casing variant; a name
stored in any other case (as `register_array_types` and
`add_array_types` store names verbatim) is never matched, not even by
itself. -/
theorem C7_is_array_case_amended :
    (∀ (reg : List Str) (q1 q2 : Str), pyLower q1 = pyLower q2 →
      is_array reg q1 = is_array reg q2) ∧
    (∀ (reg : List Str) (q : Str), is_array reg q = reg.contains (pyLower q)) ∧
    (∀ (reg : List Str) (n : Str), reg.contains n = true → pyLower n = n →
      ∀ q : Str, pyLower q = n → is_array reg q = true) ∧
    (match load_array_types (Except.ok c7_type_defs) (extractorInit []) with
     | Except.ok reg => reg.contains (S "Foo") && !(is_array reg (S "Foo"))
     | Except.error _ => false) = true := by
  refine ⟨fun reg q1 q2 h => by simp [is_array, h], fun reg q => rfl,
    fun reg n hn hl q hq => ?_, by decide⟩
  simpa [is_array, hq, hl] using hn

/-- Witness for the amended claim C7: the lower-case seeded name `signed`
is found by the upper-case query `SIGNED`. -/
theorem C7_is_array_case_amended_witness :
    is_array (extractorInit []) (S "SIGNED") = true :=
  C7_is_array_case_amended.2.2.1 (extractorInit []) (S "signed") (by decide) (by decide)
    (S "SIGNED") (by decide)

/-- Claim C8, counterexample: a port list that declares the name `a`,
then carries the section marker `{{X}}` (recorded with running count 1),
and then closes without ever giving `a` a type, produces a Component with
no ports at all but `sections = {1: X}` — the key 1 exceeds
`len(ports) = 0`, so the claimed bound `[0, len(ports)]` fails. -/
theorem C8_sections_counterexample :
    parse_vhdl c8_text =
      [VhdlObject.component (some (S "c")) [] [] [(1, some (S "X"))] (some [])] ∧
    (match parse_vhdl c8_text with
     | [VhdlObject.component _ ports _ sections _] =>
         sections.any (fun kv => ports.length < kv.1)
     | _ => false) = true :=
  ⟨by decide, by decide⟩

/-- Claim C8, amended: every key of a Component's `sections` is the
1-based running count of port names declared when its marker was seen
(the `section_meta` action records exactly the current count, the
`port_param` action is the only one incrementing it, and the
`generic_param` action leaves it untouched), and `end_component` turns
the recorded pairs into the mapping; the keys lie in `[0, len(ports)]`
whenever every declared name is completed with a type — as in the
two-port, two-marker component below — but a declared name abandoned
without a type is dropped from `ports` while its count survives in the
recorded key, so the bound can fail (see the counterexample). -/
theorem C8_sections_amended :
    (∀ (text : Str) (p1 p2 : Nat) (st : PState) (lab : Option Str),
      vhdl_action text p1 p2 st (S "section_meta") [lab] =
        { st with sections := st.sections ++ [(st.port_param_index, lab)] }) ∧
    (∀ (text : Str) (p1 p2 : Nat) (st : PState) (n : Option Str),
      vhdl_action text p1 p2 st (S "port_param") [n] =
        { st with
          gp_items := st.gp_items ++ [n]
          port_param_index := st.port_param_index + 1 }) ∧
    (∀ (text : Str) (p1 p2 : Nat) (st : PState) (n : Option Str),
      vhdl_action text p1 p2 st (S "generic_param") [n] =
        { st with gp_items := st.gp_items ++ [n] }) ∧
    (∀ (text : Str) (p1 p2 : Nat) (st : PState),
      vhdl_action text p1 p2 st (S "end_component") [] =
        { st with
          objects := st.objects ++ [VhdlObject.component st.name st.ports st.generics (pydict st.sections) (some st.metacomments)]
          last_item := none, metacomments := [] }) ∧
    (parse_vhdl c8_good_text =
      [VhdlObject.component (some (S "d"))
        [{ name := some (S "x"), mode := some (S "in"), data_type := some (S "bit"),
           default_value := none, desc := none },
         { name := some (S "y"), mode := some (S "in"), data_type := some (S "bit"),
           default_value := none, desc := none }]
        [] [(0, some (S "G1")), (1, some (S "G2"))] (some [])]) ∧
    ((match parse_vhdl c8_good_text with
      | [VhdlObject.component _ ports _ sections _] =>
          sections.all (fun kv => kv.1 ≤ ports.length)
      | _ => false) = true) :=
  ⟨fun _ _ _ _ _ => rfl, fun _ _ _ _ _ => rfl, fun _ _ _ _ _ => rfl,
   fun _ _ _ _ => rfl, by decide, by decide⟩

/-- Claim C9, counterexample: the loader's `try` catches only
`SyntaxError`.  File contents `5` parse as the integer literal 5 and the
membership test `'arrays' in 5` then raises a TypeError that propagates
to the caller; contents such as `f(1)` make `ast.literal_eval` raise a
ValueError, which the `except SyntaxError` clause does not catch; in both
cases an error reaches the caller, contradicting the claim that
unparseable or unexpected content never propagates an error. -/
theorem C9_load_error_counterexample :
    load_array_types (Except.ok (PyVal.intv 5)) (extractorInit []) =
      Except.error PyErr.typeError ∧
    load_array_types (Except.error PyErr.valueError) (extractorInit []) =
      Except.error PyErr.valueError :=
  ⟨rfl, rfl⟩

/-- Claim C9, amended: only content whose parse fails with a
`SyntaxError` is treated as an empty mapping — then nothing propagates
and the registry is returned unchanged; content parsing to a mapping (or
list) without the key `arrays` likewise leaves the registry unchanged
without error; but a parse failure other than `SyntaxError` (e.g. the
ValueError of a non-literal expression) propagates unchanged, and content
parsing to a non-container (e.g. an integer) propagates the TypeError of
the membership test. -/
theorem C9_load_amended :
    (∀ reg : List Str, load_array_types (Except.error PyErr.syntaxError) reg =
      Except.ok reg) ∧
    (∀ reg : List Str, load_array_types (Except.ok (PyVal.dict [])) reg =
      Except.ok reg) ∧
    (∀ reg : List Str, load_array_types (Except.ok (PyVal.list [])) reg =
      Except.ok reg) ∧
    (∀ reg : List Str, load_array_types (Except.error PyErr.valueError) reg =
      Except.error PyErr.valueError) ∧
    (∀ reg : List Str, load_array_types (Except.error PyErr.typeError) reg =
      Except.error PyErr.typeError) ∧
    (∀ reg : List Str, load_array_types (Except.ok (PyVal.intv 5)) reg =
      Except.error PyErr.typeError) :=
  ⟨fun _ => rfl, fun _ => rfl, fun _ => rfl, fun _ => rfl, fun _ => rfl, fun _ => rfl⟩

/-- Claim C3, counterexample: lexing the adder text reaches offset 18 —
the newline right after `component adder is`, scanned in the `component`
state, whose rules (`generic...`, `port...`, `end component`, comment)
none match there — yet the parse does not fail: the character is silently
skipped (offset 18 is the first recorded skip) and the caller receives
the completed Component object, contradicting both the claimed lexical
error and the claim that no partial object sequence reaches the caller. -/
theorem C3_skip_counterexample :
    (vhdl_skips c2_text).head? = some 18 ∧ parse_vhdl c2_text ≠ [] :=
  ⟨by decide, by decide⟩

/-- Claim C3, amended: when no rule of the active state matches at a
position before end-of-input, the lexer does not fail: it advances the
cursor one character, emits nothing, records the offset as skipped, and
continues in the same state; parsing always returns the objects built
from the rules that did match.  (The grammar relies on this: the
`array_range`/`nested_parens` states match nothing but parentheses and
recover the skipped text by slicing, and whitespace between declarations
matches no rule of the `component` state.) -/
theorem C3_skip_step_amended :
    ∀ (text : Str) (fuel : Nat) (stack : List Str) (c : Char) (rest : Str)
      (pos : Nat) (st : PState),
      tryRules ((c :: rest).length + 2) (stateRules (stack.headD (S "root"))) (c :: rest) =
        none →
      vhdl_loop text (fuel + 1) stack (c :: rest) pos st =
        ((vhdl_loop text fuel stack rest (pos + 1) st).1,
          pos :: (vhdl_loop text fuel stack rest (pos + 1) st).2) := by
  intro text fuel stack c rest pos st h
  simp only [vhdl_loop, h]

/-- Witness for the amended claim C3: in the `root` state no rule matches
the single character `@`; the step skips it, recording offset 0. -/
theorem C3_skip_step_amended_witness :
    vhdl_loop [' '] 1 [S "root"] ['@'] 0 initPState =
      ((vhdl_loop [' '] 0 [S "root"] [] 1 initPState).1,
        0 :: (vhdl_loop [' '] 0 [S "root"] [] 1 initPState).2) :=
  C3_skip_step_amended [' '] 0 [S "root"] '@' [] 0 initPState (by decide)


theorem iterN_add (st : List (Option Str × Option Str)) :
    ∀ (m n : Nat) (v : Option Str),
      iterN st (m + n) v = (iterN st m v).bind (iterN st n) := by
  intro m
  induction m with
  | zero => intro n v; simp [iterN]
  | succ m ih =>
      intro n v
      have h1 : m + 1 + n = (m + n) + 1 := by omega
      rw [h1]
      simp only [iterN]
      cases slookup st v with
      | none => simp
      | some v' => simp [ih n v']

theorem followGo_none_chain (st : List (Option Str × Option Str)) :
    ∀ (n : Nat) (v : Option Str), followGo n st v = none →
      ∀ i, i < n → ∃ w, iterN st i v = some w ∧ (slookup st w).isSome = true := by
  intro n
  induction n with
  | zero => intro v _ i hi; omega
  | succ n ih =>
      intro v hnone i hi
      cases hsl : slookup st v with
      | none => simp [followGo, hsl] at hnone
      | some v' =>
          have hnone' : followGo n st v' = none := by
            simpa [followGo, hsl] using hnone
          cases i with
          | zero => exact ⟨v, by simp [iterN], by simp [hsl]⟩
          | succ j =>
              obtain ⟨w, hw, hk⟩ := ih v' hnone' j (by omega)
              exact ⟨w, by simp [iterN, hsl, hw], hk⟩

theorem slookup_isSome_iff (st : List (Option Str × Option Str)) (v : Option Str) :
    (slookup st v).isSome = true ↔ v ∈ st.map Prod.fst := by
  induction st with
  | nil => simp [slookup]
  | cons kv st' ih =>
      by_cases h : kv.1 = v
      · simp [slookup, List.filter, h]
      · have h' : (decide (kv.1 = v)) = false := by simpa using h
        simp only [slookup, List.filter, h', List.map, List.mem_cons]
        constructor
        · intro hs
          exact Or.inr ((ih).mp (by simpa [slookup] using hs))
        · intro hs
          rcases hs with hs | hs
          · exact absurd hs.symm h
          · simpa [slookup] using (ih).mpr hs

theorem followGo_acyclic_total (st : List (Option Str × Option Str))
    (hA : AcyclicSubtypes st) (v : Option Str) :
    followGo (st.length + 1) st v ≠ none := by
  intro hnone
  have hchain := followGo_none_chain st (st.length + 1) v hnone
  have hcard : (st.map Prod.fst).toFinset.card < (Finset.range (st.length + 1)).card := by
    have h1 : (st.map Prod.fst).toFinset.card ≤ (st.map Prod.fst).length :=
      List.toFinset_card_le _
    simp only [Finset.card_range, List.length_map] at h1 ⊢
    omega
  have hmaps : ∀ i ∈ Finset.range (st.length + 1),
      (iterN st i v).getD none ∈ (st.map Prod.fst).toFinset := by
    intro i hi
    obtain ⟨w, hw, hk⟩ := hchain i (Finset.mem_range.mp hi)
    rw [hw]
    simpa [List.mem_toFinset] using (slookup_isSome_iff st w).mp hk
  obtain ⟨i, hi, j, hj, hne, heq⟩ :=
    Finset.exists_ne_map_eq_of_card_lt_of_maps_to hcard hmaps
  -- order the two indices
  have key : ∀ a b : Nat, a < b → b < st.length + 1 →
      (iterN st a v).getD none = (iterN st b v).getD none → False := by
    intro a b hab hb hgd
    obtain ⟨x, hx, hkx⟩ := hchain a (by omega)
    obtain ⟨y, hy, _⟩ := hchain b hb
    rw [hx, hy] at hgd
    simp at hgd
    subst hgd
    have hb' : b = a + (b - a) := by omega
    have : iterN st (b - a) x = some x := by
      have h2 := iterN_add st a (b - a) v
      rw [← hb'] at h2
      rw [hy, hx] at h2
      simpa using h2.symm
    obtain ⟨d, hd⟩ : ∃ d, b - a = d + 1 := ⟨b - a - 1, by omega⟩
    rw [hd] at this
    exact hA x hkx d this
  rcases Nat.lt_or_ge i j with hij | hij
  · exact key i j hij (Finset.mem_range.mp hj) heq
  · have hij' : j < i := by
      rcases Nat.lt_or_ge j i with h | h
      · exact h
      · omega
    exact key j i hij' (Finset.mem_range.mp hi) heq.symm

theorem foldlM_option_isSome {α β : Type} (f : β → α → Option β) :
    ∀ (l : List α) (init : β), (∀ b a, a ∈ l → (f b a).isSome = true) →
      (l.foldlM f init).isSome = true := by
  intro l
  induction l with
  | nil => intro init _; simp
  | cons a l ih =>
      intro init h
      have ha : (f init a).isSome = true := h init a (by simp)
      obtain ⟨b, hb⟩ := Option.isSome_iff_exists.mp ha
      rw [List.foldlM_cons, hb]
      exact ih b (fun b' a' ha' => h b' a' (by simp [ha']))

/-- Claim C10: the base-type chase of `register_array_types` terminates
for every acyclic subtype relation — under `AcyclicSubtypes`, fuel
`len(subtypes) + 1` never runs out (by pigeonhole, a chase that survives
that many steps revisits a key, contradicting acyclicity), so
`register_array_types` returns a registry.  For the cyclic source
`subtype a is b; subtype b is a`, the loop `while v in subtypes` never
exits — `followGo` returns `none` for *every* fuel — so registering the
parsed objects of that source (and hence extraction of it) does not
return. -/
theorem C10_register_termination :
    (∀ st : List (Option Str × Option Str), AcyclicSubtypes st →
      ∀ v : Option Str, followGo (st.length + 1) st v ≠ none) ∧
    (∀ (objects : List VhdlObject) (reg : List Str),
      AcyclicSubtypes (subtypesOf objects) →
      register_array_types objects reg ≠ none) ∧
    (∀ fuel : Nat,
      followGo fuel (subtypesOf (parse_vhdl c10_cycle_text)) (some (S "a")) = none ∧
      followGo fuel (subtypesOf (parse_vhdl c10_cycle_text)) (some (S "b")) = none) ∧
    register_array_types (parse_vhdl c10_cycle_text) (extractorInit []) = none ∧
    extract_components c10_cycle_text (extractorInit []) = none := by
  refine ⟨followGo_acyclic_total, ?_, ?_, by decide, by decide⟩
  · intro objects reg hA
    have hsome : (register_array_types objects reg).isSome = true := by
      unfold register_array_types
      apply foldlM_option_isSome
      intro b kv hkv
      have hf := followGo_acyclic_total (subtypesOf objects) hA kv.2
      cases hfg : followGo ((subtypesOf objects).length + 1) (subtypesOf objects) kv.2 with
      | none => exact absurd hfg hf
      | some fin =>
          simp only [hfg]
          cases fin with
          | none => cases kv.1 <;> simp
          | some finName => cases kv.1 <;> simp
    intro h
    rw [h] at hsome
    simp at hsome
  · have hst : subtypesOf (parse_vhdl c10_cycle_text) =
        [(some (S "a"), some (S "b")), (some (S "b"), some (S "a"))] := by decide
    rw [hst]
    intro fuel
    induction fuel with
    | zero => exact ⟨rfl, rfl⟩
    | succ n ih =>
        refine ⟨?_, ?_⟩
        · have h1 : slookup [(some (S "a"), some (S "b")), (some (S "b"), some (S "a"))]
              (some (S "a")) = some (some (S "b")) := by decide
          simp only [followGo, h1]
          exact ih.2
        · have h1 : slookup [(some (S "a"), some (S "b")), (some (S "b"), some (S "a"))]
              (some (S "b")) = some (some (S "a")) := by decide
          simp only [followGo, h1]
          exact ih.1

/-- Witness for claim C10: the one-entry acyclic relation `b -> a`
terminates (its chase from `a` succeeds within the fuel bound), and
registering a single acyclic subtype object returns a registry. -/
theorem C10_register_termination_witness :
    followGo 2 [(some (S "b"), some (S "a"))] (some (S "a")) ≠ none ∧
    register_array_types [VhdlObject.vsubtype (some (S "b")) (some (S "a")) (some [])]
      (extractorInit []) ≠ none := by
  have hA : AcyclicSubtypes [(some (S "b"), some (S "a"))] := by
    intro v hv n
    have hv' : v = some (S "b") := by
      have h := (slookup_isSome_iff _ v).mp hv
      simpa using h
    subst hv'
    cases n with
    | zero =>
        intro h
        rw [show iterN [(some (S "b"), some (S "a"))] 1 (some (S "b")) =
            some (some (S "a")) from by decide] at h
        exact absurd h (by decide)
    | succ m =>
        intro h
        have h1 : iterN [(some (S "b"), some (S "a"))] (m + 1 + 1) (some (S "b")) = none := by
          simp only [iterN]
          rw [show slookup [(some (S "b"), some (S "a"))] (some (S "b")) =
              some (some (S "a")) from by decide]
          cases m with
          | zero =>
              simp only [iterN]
              rw [show slookup [(some (S "b"), some (S "a"))] (some (S "a")) = none from by decide]
          | succ m' =>
              simp only [iterN]
              rw [show slookup [(some (S "b"), some (S "a"))] (some (S "a")) = none from by decide]
        rw [h1] at h
        exact Option.noConfusion h
  refine ⟨C10_register_termination.1 [(some (S "b"), some (S "a"))] hA (some (S "a")), ?_⟩
  exact C10_register_termination.2.1
    [VhdlObject.vsubtype (some (S "b")) (some (S "a")) (some [])] (extractorInit [])
    (by exact hA)

theorem stateRules_array_range :
    stateRules (S "array_range") =
      [mkRule (Regex.chr '(') 0 (some "open_paren") (some (Dir.push (S "nested_parens"))),
       mkRule (Regex.chr ')') 0 (some "array_range_end") (some (Dir.pop 1))] := rfl

theorem stateRules_nested_parens :
    stateRules (S "nested_parens") =
      [mkRule (Regex.chr '(') 0 (some "open_paren") (some (Dir.push (S "nested_parens"))),
       mkRule (Regex.chr ')') 0 (some "close_paren") (some (Dir.pop 1))] := rfl

theorem vhdl_action_open_paren (text : Str) (p q : Nat) (st : PState) :
    vhdl_action text p q st (S "open_paren") [] = st := rfl

theorem vhdl_action_close_paren (text : Str) (p q : Nat) (st : PState) :
    vhdl_action text p q st (S "close_paren") [] = st := rfl

theorem tryRules_two_chr_nomatch (c : Char) (h1 : c ≠ '(') (h2 : c ≠ ')')
    (rest : Str) (fuel : Nat) (a1 a2 : Option String) (d1 d2 : Option Dir) :
    tryRules (fuel + 1)
      [mkRule (Regex.chr '(') 0 a1 d1, mkRule (Regex.chr ')') 0 a2 d2]
      (c :: rest) = none := by
  simp only [tryRules, ruleMatch, mkRule, mmatch, mmatchGo]
  simp [h1, h2]

theorem tryRules_two_chr_open (rest : Str) (fuel : Nat)
    (a1 a2 : Option String) (d1 d2 : Option Dir) :
    tryRules (fuel + 1)
      [mkRule (Regex.chr '(') 0 a1 d1, mkRule (Regex.chr ')') 0 a2 d2]
      ('(' :: rest) = some (1, a1.map S, [], d1) := by
  simp only [tryRules, ruleMatch, mkRule, mmatch, mmatchGo]
  simp

theorem tryRules_two_chr_close (rest : Str) (fuel : Nat)
    (a1 a2 : Option String) (d1 d2 : Option Dir) :
    tryRules (fuel + 1)
      [mkRule (Regex.chr '(') 0 a1 d1, mkRule (Regex.chr ')') 0 a2 d2]
      (')' :: rest) = some (1, a2.map S, [], d2) := by
  simp only [tryRules, ruleMatch, mkRule, mmatch, mmatchGo]
  simp

theorem loop_scan_balanced (text : Str) :
    ∀ (r : Str), BalParen r →
    ∀ (T : Str), (T = S "array_range" ∨ T = S "nested_parens") →
    ∀ (fuel : Nat) (stack : List Str) (rest : Str) (pos : Nat) (st : PState),
      (vhdl_loop text (fuel + r.length) (T :: stack) (r ++ rest) pos st).1 =
      (vhdl_loop text fuel (T :: stack) rest (pos + r.length) st).1 := by
  intro r hr
  induction hr with
  | nil =>
      intro T hT fuel stack rest pos st
      simp
  | @chr c s h1 h2 hb ih =>
      intro T hT fuel stack rest pos st
      simp only [List.length_cons, List.cons_append]
      have e1 : fuel + (s.length + 1) = (fuel + s.length) + 1 := by omega
      rw [e1]
      have hhead : (T :: stack).headD (S "root") = T := rfl
      have hscrut : tryRules ((c :: (s ++ rest)).length + 2)
          (stateRules ((T :: stack).headD (S "root"))) (c :: (s ++ rest)) = none := by
        rw [hhead]
        have e2 : (c :: (s ++ rest)).length + 2 = ((s ++ rest).length + 2) + 1 := by
          simp
        rw [e2]
        rcases hT with h | h <;> rw [h]
        · rw [stateRules_array_range]
          exact tryRules_two_chr_nomatch c h1 h2 _ _ _ _ _ _
        · rw [stateRules_nested_parens]
          exact tryRules_two_chr_nomatch c h1 h2 _ _ _ _ _ _
      simp only [vhdl_loop, hscrut]
      rw [ih T hT fuel stack rest (pos + 1) st]
      have e3 : pos + 1 + s.length = pos + (s.length + 1) := by omega
      rw [e3]
  | @wrap s t hs ht ihs iht =>
      intro T hT fuel stack rest pos st
      simp only [List.length_cons, List.cons_append, List.length_append]
      have e1 : fuel + (s.length + (t.length + 1) + 1) =
          (fuel + (t.length + 1) + s.length) + 1 := by omega
      rw [e1]
      have hhead : (T :: stack).headD (S "root") = T := rfl
      have hscrut : tryRules (('(' :: (s ++ ')' :: t ++ rest)).length + 2)
          (stateRules ((T :: stack).headD (S "root"))) ('(' :: (s ++ ')' :: t ++ rest)) =
          some (1, some (S "open_paren"), [], some (Dir.push (S "nested_parens"))) := by
        rw [hhead]
        have e2 : ('(' :: (s ++ ')' :: t ++ rest)).length + 2 =
            ((s ++ ')' :: t ++ rest).length + 2) + 1 := by simp
        rw [e2]
        rcases hT with h | h <;> rw [h]
        · rw [stateRules_array_range]
          exact tryRules_two_chr_open _ _ _ _ _ _
        · rw [stateRules_nested_parens]
          exact tryRules_two_chr_open _ _ _ _ _ _
      simp only [vhdl_loop, hscrut, vhdl_action_open_paren, applyDir, List.drop]
      have hassoc : s ++ ')' :: t ++ rest = s ++ (')' :: (t ++ rest)) := by simp
      rw [hassoc]
      rw [ihs (S "nested_parens") (Or.inr rfl) (fuel + (t.length + 1)) (T :: stack)
        (')' :: (t ++ rest)) (pos + 1) st]
      have e5 : fuel + (t.length + 1) = (fuel + t.length) + 1 := by omega
      rw [e5]
      have hscrut2 : tryRules ((')' :: (t ++ rest)).length + 2)
          (stateRules ((S "nested_parens" :: T :: stack).headD (S "root")))
          (')' :: (t ++ rest)) =
          some (1, some (S "close_paren"), [], some (Dir.pop 1)) := by
        have e6 : (')' :: (t ++ rest)).length + 2 = ((t ++ rest).length + 2) + 1 := by simp
        rw [show (S "nested_parens" :: T :: stack).headD (S "root") = S "nested_parens" from rfl]
        rw [e6, stateRules_nested_parens]
        exact tryRules_two_chr_close _ _ _ _ _ _
      simp only [vhdl_loop, hscrut2, vhdl_action_close_paren, applyDir, List.drop]
      rw [iht T hT fuel stack rest (pos + 1 + s.length + 1) st]
      have e7 : pos + 1 + s.length + 1 + t.length =
          pos + (s.length + (t.length + 1) + 1) := by omega
      rw [e7]

theorem loop_fst_nil (text : Str) (fuel : Nat) (stack : List Str) (pos : Nat) (st : PState) :
    vhdl_loop text fuel stack [] pos st = (st, []) := by
  cases fuel <;> rfl

theorem c5_head_steps (text : Str) (fuel : Nat) (tail : Str) :
    vhdl_loop text (fuel + 5) [S "root"] (c5_pre ++ tail) 0 initPState =
    vhdl_loop text fuel
      [S "array_range", S "port_param_type", S "port_list", S "component", S "root"]
      tail 32 c5_state := rfl

theorem c5_suffix (text : Str) (fuel pos : Nat) :
    vhdl_loop text (fuel + 3)
      [S "array_range", S "port_param_type", S "port_list", S "component", S "root"]
      c5_post pos c5_state =
    vhdl_loop text fuel [S "root"] [] (pos + 17)
      { c5_state with
        ports := [c5_port text pos]
        gp_items := []
        last_item := none
        objects := [VhdlObject.component (some (S "c")) [c5_port text pos] [] [] (some [])] } := rfl

theorem c5_slice (r : Str) :
    pySlice (c5_pre ++ (r ++ c5_post)) 31 (32 + r.length + 1) = '(' :: (r ++ [')']) := by
  unfold pySlice
  rw [List.drop_append_eq_append_drop]
  have h1 : List.drop 31 c5_pre = ['('] := rfl
  have h2 : (31 - c5_pre.length) = 0 := rfl
  rw [h1, h2]
  simp only [List.drop_zero, List.cons_append, List.nil_append]
  have h3 : 32 + r.length + 1 - 31 = (r.length + 1) + 1 := by omega
  rw [h3]
  simp only [List.take_succ_cons]
  rw [List.take_append_eq_append_take]
  rw [List.take_of_length_le (by omega : r.length ≤ r.length + 1)]
  have h4 : r.length + 1 - r.length = 1 := by omega
  rw [h4]
  have h5 : List.take 1 c5_post = [')'] := rfl
  rw [h5]

/-- Claim C5: for every balanced range expression `r` (arbitrary nesting
depth, so in particular up to depth 3), parsing a port declared with the
array-ranged type `vec(` r `)` emits a port whose `data_type` is the
scalar type name `vec` followed verbatim by the literal source text from
the opening parenthesis (inclusive) through its matching closing
parenthesis (inclusive). -/
theorem C5_array_range_roundtrip (r : Str) (hr : BalParen r) :
    parse_vhdl (c5_pre ++ r ++ c5_post) =
      [VhdlObject.component (some (S "c"))
        [{ name := some (S "p"), mode := some (S "in"),
           data_type := some (S "vec(" ++ r ++ S ")"),
           default_value := none, desc := none }]
        [] [] (some [])] := by
  have htext : c5_pre ++ r ++ c5_post = c5_pre ++ (r ++ c5_post) := by
    simp [List.append_assoc]
  have hlen : (c5_pre ++ r ++ c5_post).length + 1 = (r.length + 45) + 5 := by
    simp [c5_pre, c5_post, S]
  unfold parse_vhdl
  rw [hlen, htext]
  rw [c5_head_steps]
  rw [show r.length + 45 = 45 + r.length by omega]
  rw [loop_scan_balanced (c5_pre ++ (r ++ c5_post)) r hr (S "array_range") (Or.inl rfl) 45
    [S "port_param_type", S "port_list", S "component", S "root"] c5_post 32 c5_state]
  rw [show (45 : Nat) = 42 + 3 from rfl]
  rw [c5_suffix]
  rw [loop_fst_nil]
  simp only [c5_port, c5_slice]
  simp [S, List.append_assoc]

/-- Witness for claim C5: the depth-3 balanced range `1(2(3(4)))` is
reproduced verbatim in the port's `data_type`. -/
theorem C5_array_range_roundtrip_witness :
    parse_vhdl (c5_pre ++ S "1(2(3(4)))" ++ c5_post) =
      [VhdlObject.component (some (S "c"))
        [{ name := some (S "p"), mode := some (S "in"),
           data_type := some (S "vec(1(2(3(4))))"),
           default_value := none, desc := none }]
        [] [] (some [])] :=
  C5_array_range_roundtrip (S "1(2(3(4)))")
    (BalParen.chr (by decide) (by decide)
      (@BalParen.wrap (S "2(3(4))") []
        (BalParen.chr (by decide) (by decide)
          (@BalParen.wrap (S "3(4)") []
            (BalParen.chr (by decide) (by decide)
              (@BalParen.wrap (S "4") []
                (BalParen.chr (by decide) (by decide) BalParen.nil)
                BalParen.nil))
            BalParen.nil))
        BalParen.nil))
